import Mathlib

/-!
# run-connect: tunnel client and server

A shallow embedding of `internal/core/client.go` and `internal/core/server.go`.

Every function of the source is a Lean function that returns its Go result together
with the list of externally visible calls it made, in program order (`Event`).  The
results of calls into libraries and the network (IAM, the HTTP transport, `net.Listen`,
`Hijack`, `yamux`, ...) are supplied by an environment record, so that every theorem
quantifies over all behaviours of the outside world.

Goroutines are sequentialised: the events of a spawned task are appended in the order
of that one task; no interleaving is modelled.
-/

set_option autoImplicit false

namespace RunConnect

/-! ## Shared data model -/

/-- The type `http.Header`: a map from canonical header names to their values. -/
abbrev Header := List (String × List String)

/-- The method `http.Header.Get`: the first value stored under the key, or the empty
string when there is none.  The only key the source uses, "Upgrade", is already in
canonical form. -/
def Header.Get (h : Header) (key : String) : String :=
  match h.lookup key with
  | some (v :: _) => v
  | _ => ""

/-- An object on which methods are called: a socket, a response body, ... -/
abbrev Handle := Nat

/-- The methods of `net.Conn`. -/
inductive ConnMethod where
  | Read
  | Write
  | Close
  | LocalAddr
  | RemoteAddr
  | SetDeadline
  | SetReadDeadline
  | SetWriteDeadline
  deriving DecidableEq, Repr

/-- The request handed to `http.Transport.RoundTrip` by the client. -/
structure ClientRequest where
  Method : String
  URL : String
  Header : Header
  deriving DecidableEq, Repr

/-- The type `iamcredentials.GenerateIdTokenRequest` (the fields the source sets). -/
structure GenerateIdTokenRequest where
  Audience : String
  IncludeEmail : Bool
  deriving DecidableEq, Repr

/-- Externally visible calls, in the order the program makes them. -/
inductive Event where
  /-- The call `iamcredentials.NewService(ctx)`. -/
  | iamNewService
  /-- The call `log.Fatal(err)`: the process exits. -/
  | logFatal (msg : String)
  /-- The call `service.Projects.ServiceAccounts.GenerateIdToken(name, req).Do()`. -/
  | iamGenerateIdToken (name : String) (req : GenerateIdTokenRequest)
  /-- The call `tr.RoundTrip(req)`: the upgrade request goes out. -/
  | roundTrip (req : ClientRequest)
  /-- A method call on a socket or body handle. -/
  | call (h : Handle) (m : ConnMethod)
  /-- The call `yamux.Client(conn, nil)`. -/
  | yamuxClient
  /-- The call `net.Listen("tcp", addr)`. -/
  | netListen (addr : String)
  /-- The accept loop of the client is spawned. -/
  | goAcceptLoop
  /-- The call `listen.Close()`. -/
  | listenClose
  /-- The call `session.Close()`. -/
  | sessionClose
  /-- The call `w.Header().Set(key, value)`. -/
  | headerSet (key value : String)
  /-- The call `w.WriteHeader(code)`. -/
  | writeHeader (code : Nat)
  /-- A write of the response body through the response writer. -/
  | write (body : String)
  /-- The call `Hijack()` on the response writer. -/
  | hijack
  /-- The call `brw.Flush()` or `wbuf.Flush()` on the hijacked buffer. -/
  | flush
  /-- The call `Close()` on the hijacked connection. -/
  | hijackedConnClose
  /-- The call `yamux.Server(conn, nil)`. -/
  | yamuxServer
  /-- The embedded HTTP server of proxy mode is spawned over the mux session. -/
  | goServeMux
  /-- The accept loop of forward mode is spawned over the mux session. -/
  | goAcceptMux
  /-- The call `net.DialTimeout("tcp", addr, 10s)`. -/
  | dial (addr : String)
  /-- The call `pipe(from, to)`. -/
  | pipe
  /-- The call `Close()` on the dialed connection. -/
  | dialedConnClose
  /-- The call `Close()` on a mux stream accepted in forward mode. -/
  | streamClose
  /-- The call `r.Body.Close()` on the request body. -/
  | requestBodyClose
  /-- The final `select` of a handler: it blocks until the context or the session ends. -/
  | waitDone
  deriving DecidableEq, Repr

/-- How a Go function ends: a value, a returned error, or the process exiting in
`log.Fatal`. -/
inductive Outcome (α : Type) where
  | ok (a : α)
  | error (msg : String)
  | exit (msg : String)
  deriving DecidableEq, Repr

deriving instance DecidableEq for Except

/-! ## Client (`internal/core/client.go`) -/

/-- The struct `Client`. -/
structure Client where
  addr : String
  remote : String
  idToken : String
  serviceAccount : String
  clientId : String
  deriving DecidableEq, Repr

/-- The struct `http.Response`, with the fields the client reads.  `Body` is the handle
of `resp.Body`; `bodyIsReadWriteCloser` is the result of the type assertion
`resp.Body.(io.ReadWriteCloser)`. -/
structure Response where
  StatusCode : Nat
  Status : String
  Header : Header
  Body : Handle
  bodyIsReadWriteCloser : Bool
  deriving DecidableEq, Repr

/-- Everything the client obtains from outside. -/
structure ClientEnv where
  /-- The result of `iamcredentials.NewService`. -/
  iamNewService : Except String Unit
  /-- The result of `GenerateIdToken(name, req).Do()`: the minted token. -/
  iamGenerateIdToken : String → GenerateIdTokenRequest → Except String String
  /-- The result of `url.Parse`. -/
  urlParse : String → Except String String
  /-- The result of `tr.RoundTrip`: the response, and the connection the `GotConn`
  hook put on `connCh` (`none` when the channel is empty or holds nil). -/
  roundTrip : ClientRequest → Except String (Response × Option Handle)
  /-- The function `strconv.Quote`, used by the verb `%q`. -/
  quote : String → String
  /-- The result of `yamux.Client`. -/
  yamuxClient : Except String Unit
  /-- The result of `net.Listen`. -/
  netListen : String → Except String Unit
  /-- Which case of the final `select` fires: `true` for `ctx.Done()`. -/
  ctxDoneFirst : Bool

/-- The struct `wrappedConn`: the embedded `net.Conn` and the field `rwc`. -/
structure wrappedConn where
  Conn : Handle
  rwc : Handle
  deriving DecidableEq, Repr

/-- The method `wrappedConn.Read`. -/
def wrappedConn.Read (w : wrappedConn) : Event := .call w.rwc .Read

/-- The method `wrappedConn.Write`. -/
def wrappedConn.Write (w : wrappedConn) : Event := .call w.rwc .Write

/-- The method `wrappedConn.Close`. -/
def wrappedConn.Close (w : wrappedConn) : Event := .call w.rwc .Close

/-- The method `LocalAddr`, promoted from the embedded `net.Conn`. -/
def wrappedConn.LocalAddr (w : wrappedConn) : Event := .call w.Conn .LocalAddr

/-- The method `RemoteAddr`, promoted from the embedded `net.Conn`. -/
def wrappedConn.RemoteAddr (w : wrappedConn) : Event := .call w.Conn .RemoteAddr

/-- The method `SetDeadline`, promoted from the embedded `net.Conn`. -/
def wrappedConn.SetDeadline (w : wrappedConn) : Event := .call w.Conn .SetDeadline

/-- The method `SetReadDeadline`, promoted from the embedded `net.Conn`. -/
def wrappedConn.SetReadDeadline (w : wrappedConn) : Event := .call w.Conn .SetReadDeadline

/-- The method `SetWriteDeadline`, promoted from the embedded `net.Conn`. -/
def wrappedConn.SetWriteDeadline (w : wrappedConn) : Event := .call w.Conn .SetWriteDeadline

/-- The method set of `wrappedConn` as a `net.Conn`: which call each method makes. -/
def wrappedConn.invoke (w : wrappedConn) : ConnMethod → Event
  | .Read => w.Read
  | .Write => w.Write
  | .Close => w.Close
  | .LocalAddr => w.LocalAddr
  | .RemoteAddr => w.RemoteAddr
  | .SetDeadline => w.SetDeadline
  | .SetReadDeadline => w.SetReadDeadline
  | .SetWriteDeadline => w.SetWriteDeadline

/-- The handles a call closes.  `Close` on a handle closes that handle and, when the
handle is a response body, the connection that body wraps.  Which connection a body
wraps is fixed by the HTTP transport, not by the source, and is the parameter
`bodyConn`: in `net/http` the body of a `101` response wraps the connection of its
request, and the `Close` of that body is the `Close` of the connection. -/
def closedBy (bodyConn : Handle → Option Handle) : Event → List Handle
  | .call h .Close => h :: (bodyConn h).toList
  | _ => []

/-- The method `Client.getToken`. -/
def Client.getToken (env : ClientEnv) (c : Client) : Outcome String × List Event :=
  if c.idToken ≠ "" then
    (.ok c.idToken, [])
  else if c.serviceAccount ≠ "" then
    let audience := if c.clientId ≠ "" then c.clientId else c.remote
    match env.iamNewService with
    | .error e => (.exit e, [.iamNewService, .logFatal e])
    | .ok _ =>
      let name := "projects/-/serviceAccounts/" ++ c.serviceAccount
      let tokenRequest : GenerateIdTokenRequest := ⟨audience, true⟩
      match env.iamGenerateIdToken name tokenRequest with
      | .error e => (.error e, [.iamNewService, .iamGenerateIdToken name tokenRequest])
      | .ok at_ => (.ok at_, [.iamNewService, .iamGenerateIdToken name tokenRequest])
  else
    (.error "unable to get token, missing id token or service account ", [])

/-- The method `Client.connect`. -/
def Client.connect (env : ClientEnv) (c : Client) (token : String) :
    Except String wrappedConn × List Event :=
  match env.urlParse c.remote with
  | .error e => (.error e, [])
  | .ok u =>
    let req : ClientRequest :=
      ⟨"GET", u, [("Upgrade", ["websocket"]), ("Connection", ["upgrade"]),
        ("Authorization", ["Bearer " ++ token])]⟩
    match env.roundTrip req with
    | .error e => (.error e, [.roundTrip req])
    | .ok (resp, switchedConn) =>
      if resp.StatusCode ≠ 101 then
        (.error ("unexpected HTTP response: " ++ resp.Status), [.roundTrip req])
      else
        match switchedConn with
        | none =>
          (.error "httptrace didn't provide a connection",
            [.roundTrip req, .call resp.Body .Close])
        | some sc =>
          let next := resp.Header.Get "Upgrade"
          if next ≠ "websocket" then
            (.error ("server switched to unexpected protocol " ++ env.quote next),
              [.roundTrip req, .call resp.Body .Close])
          else if ¬ resp.bodyIsReadWriteCloser then
            (.error "http Transport did not provide a writable body",
              [.roundTrip req, .call resp.Body .Close])
          else
            (.ok ⟨sc, resp.Body⟩, [.roundTrip req])

/-- The method `Client.start`.  The deferred closes run when the final `select`
returns. -/
def Client.start (env : ClientEnv) (c : Client) : Outcome Unit × List Event :=
  match c.getToken env with
  | (.error e, t) => (.error e, t)
  | (.exit e, t) => (.exit e, t)
  | (.ok token, t₁) =>
    match c.connect env token with
    | (.error e, t₂) => (.error e, t₁ ++ t₂)
    | (.ok conn, t₂) =>
      match env.yamuxClient with
      | .error e => (.error e, t₁ ++ t₂ ++ [.yamuxClient])
      | .ok _ =>
        match env.netListen c.addr with
        | .error e => (.error e, t₁ ++ t₂ ++ [.yamuxClient, .netListen c.addr])
        | .ok _ =>
          let t := t₁ ++ t₂ ++ [.yamuxClient, .netListen c.addr, .goAcceptLoop, .waitDone,
            .listenClose, .sessionClose, conn.Close]
          if env.ctxDoneFirst then (.ok (), t) else (.error "disconnected from server", t)

/-- The function `StartClient`. -/
def StartClient (env : ClientEnv) (addr remote idToken serviceAccount clientId : String) :
    Outcome Unit × List Event :=
  Client.start env ⟨addr, remote, idToken, serviceAccount, clientId⟩

/-- The IAM calls in a list of events. -/
def iamCalls (t : List Event) : List Event :=
  t.filter fun e =>
    match e with
    | .iamNewService => true
    | .iamGenerateIdToken _ _ => true
    | _ => false

/-! ## Server (`internal/core/server.go`) -/

/-- The struct `Server`. -/
structure Server where
  mode : String
  upstream : String
  deriving DecidableEq, Repr

/-- The struct `http.Request`, with the fields the handlers read. -/
structure Request where
  Method : String
  Host : String
  Header : Header
  deriving DecidableEq, Repr

/-- What a handler obtains from its `http.ResponseWriter`: whether the type assertion
`w.(http.Hijacker)` succeeds, the result of `Hijack()` and the result of flushing the
hijacked buffer in `acceptHTTP`. -/
structure ResponseWriter where
  isHijacker : Bool
  hijack : Except String Unit
  flush : Except String Unit

/-- The function `http.Error(w, error, code)` of the standard library: it sets two
headers, calls `w.WriteHeader(code)` and prints the message as the body. -/
def httpError (error : String) (code : Nat) : List Event :=
  [.headerSet "Content-Type" "text/plain; charset=utf-8",
   .headerSet "X-Content-Type-Options" "nosniff",
   .writeHeader code,
   .write (error ++ "\n")]

/-- The codes passed to `WriteHeader`, in call order. -/
def writeHeaderCodes : List Event → List Nat
  | [] => []
  | .writeHeader code :: t => code :: writeHeaderCodes t
  | _ :: t => writeHeaderCodes t

/-- The status of the response: by the contract of `http.ResponseWriter` the first call
of `WriteHeader` fixes the status line, and a later call is superfluous and changes
nothing. -/
def statusSent (t : List Event) : Option Nat :=
  (writeHeaderCodes t).head?

/-- The method `Server.acceptHTTP`. -/
def Server.acceptHTTP (_s : Server) (w : ResponseWriter) (r : Request) :
    Except String Unit × List Event :=
  let next := r.Header.Get "Upgrade"
  if next = "" then
    (.error "missing next protocol", [])
  else if next ≠ "websocket" then
    (.error "unknown next protocol", [])
  else if ¬ w.isHijacker then
    (.error "make request over HTTP/1", [])
  else
    let t : List Event :=
      [.headerSet "Upgrade" "websocket", .headerSet "Connection" "upgrade",
       .writeHeader 101, .hijack]
    match w.hijack with
    | .error e => (.error ("hijacking client connection: " ++ e), t)
    | .ok _ =>
      match w.flush with
      | .error e =>
        (.error ("flushing hijacked HTTP buffer: " ++ e), t ++ [.flush, .hijackedConnClose])
      | .ok _ => (.ok (), t ++ [.flush])

/-- The method `Server.connect`, the handler of proxy mode.  The deferred calls run in
reverse order at each return. -/
def Server.connect (dial : String → Except String Unit) (_s : Server) (w : ResponseWriter)
    (r : Request) : List Event :=
  if r.Method ≠ "CONNECT" then
    [.writeHeader 405]
  else
    match dial r.Host with
    | .error e =>
      [.dial r.Host] ++ httpError ("unable to dial " ++ r.Host ++ ", error: " ++ e) 503
        ++ [.requestBodyClose]
    | .ok _ =>
      let t : List Event := [.dial r.Host, .writeHeader 200]
      if ¬ w.isHijacker then
        t ++ httpError "make request over HTTP/1" 400 ++ [.dialedConnClose, .requestBodyClose]
      else
        match w.hijack with
        | .error e =>
          t ++ [.hijack] ++ httpError ("hijacking client connection: " ++ e) 500
            ++ [.dialedConnClose, .requestBodyClose]
        | .ok _ =>
          t ++ [.hijack, .pipe, .flush, .hijackedConnClose, .dialedConnClose,
            .requestBodyClose]

/-- One mux stream accepted by the server: the request it carries with its response
writer (read in proxy mode) and the result of `net.DialTimeout` for each address. -/
structure Stream where
  w : ResponseWriter
  r : Request
  dial : String → Except String Unit

/-- The body of the goroutine that forward mode runs for one accepted stream. -/
def Server.forwardStream (s : Server) (st : Stream) : List Event :=
  match st.dial s.upstream with
  | .error _ => [.dial s.upstream, .streamClose]
  | .ok _ => [.dial s.upstream, .pipe, .dialedConnClose, .streamClose]

/-- What one call of `tunnel` obtains from outside: the result of `yamux.Server` and the
streams the session accepts. -/
structure TunnelEnv where
  yamuxServer : Except String Unit
  streams : List Stream

/-- The method `Server.tunnel`, the handler of the control listener. -/
def Server.tunnel (env : TunnelEnv) (s : Server) (w : ResponseWriter) (req : Request) :
    List Event :=
  match s.acceptHTTP w req with
  | (.error e, t) => t ++ httpError e 400
  | (.ok _, t) =>
    match env.yamuxServer with
    | .error e => t ++ [.yamuxServer] ++ httpError e 500
    | .ok _ =>
      if s.mode = "proxy" then
        t ++ [.yamuxServer, .goServeMux]
          ++ (env.streams.map fun st => s.connect st.dial st.w st.r).flatten ++ [.waitDone]
      else
        t ++ [.yamuxServer, .goAcceptMux]
          ++ (env.streams.map fun st => s.forwardStream st).flatten ++ [.waitDone]

/-- One HTTP request arriving at the control listener. -/
structure Upgrade where
  w : ResponseWriter
  req : Request
  env : TunnelEnv

/-- Everything `StartServer` obtains from outside: the result of `net.Listen`, the
requests `http.Serve` hands to the handler, and the error `http.Serve` ends with (it
never returns nil). -/
structure ServerEnv where
  netListen : String → Except String Unit
  requests : List Upgrade
  serveError : String

/-- The function `StartServer`. -/
def StartServer (env : ServerEnv) (addr mode upstream : String) :
    Except String Unit × List Event :=
  match env.netListen addr with
  | .error e => (.error e, [.netListen addr])
  | .ok _ =>
    let s : Server := ⟨mode, upstream⟩
    (.error env.serveError,
      [.netListen addr] ++ (env.requests.map fun q => s.tunnel q.env q.w q.req).flatten)

/-- The `RunE` of `createForwardCommand` in `main.go`. -/
def forwardCommand (env : ServerEnv) (addr upstream : String) :
    Except String Unit × List Event :=
  StartServer env addr "forward" upstream

/-- The `RunE` of `createProxyCommand` in `main.go`. -/
def proxyCommand (env : ServerEnv) (addr : String) : Except String Unit × List Event :=
  StartServer env addr "proxy" ""

/-! ## Sample inputs -/

/-- An outside world for the client in which every call succeeds: the server answers
the upgrade with `101` and `Upgrade: websocket`. -/
def sampleClientEnv : ClientEnv where
  iamNewService := .ok ()
  iamGenerateIdToken := fun _ _ => .ok "minted"
  urlParse := fun raw => .ok raw
  roundTrip := fun _ => .ok (⟨101, "101 Switching Protocols",
    [("Upgrade", ["websocket"]), ("Connection", ["upgrade"])], 2, true⟩, some 1)
  quote := fun s => "\"" ++ s ++ "\""
  yamuxClient := .ok ()
  netListen := fun _ => .ok ()
  ctxDoneFirst := true

/-- An outside world in which the remote answers the upgrade request with `200 OK`
(scenario S3); the body of the response is handle 2, the socket is handle 1. -/
def refusingClientEnv : ClientEnv where
  iamNewService := .ok ()
  iamGenerateIdToken := fun _ _ => .ok "minted"
  urlParse := fun raw => .ok raw
  roundTrip := fun _ => .ok (⟨200, "200 OK", [], 2, false⟩, some 1)
  quote := fun s => "\"" ++ s ++ "\""
  yamuxClient := .ok ()
  netListen := fun _ => .ok ()
  ctxDoneFirst := true

/-- The transport of the sample worlds: body 2 wraps socket 1. -/
def sampleBodyConn : Handle → Option Handle := fun h => if h = 2 then some 1 else none

/-- The upgrade request `connect` builds for a parsed URL and a token. -/
def upgradeRequest (u token : String) : ClientRequest :=
  ⟨"GET", u, [("Upgrade", ["websocket"]), ("Connection", ["upgrade"]),
    ("Authorization", ["Bearer " ++ token])]⟩

/-- A response writer of an HTTP/1.1 connection on which every call succeeds. -/
def goodWriter : ResponseWriter := ⟨true, .ok (), .ok ()⟩

/-- A response writer whose `Hijack` call fails. -/
def failingHijackWriter : ResponseWriter := ⟨true, .error "hijack failed", .ok ()⟩

/-- A response writer that is not a `http.Hijacker`. -/
def plainWriter : ResponseWriter := ⟨false, .ok (), .ok ()⟩

/-- A well-formed upgrade request. -/
def upgradeGet : Request := ⟨"GET", "127.0.0.1:9000", [("Upgrade", ["websocket"])]⟩

/-- A session on which `yamux.Server` succeeds and no stream arrives. -/
def idleTunnel : TunnelEnv := ⟨.ok (), []⟩

/-- A dialer for which every target is reachable. -/
def dialOk : String → Except String Unit := fun _ => .ok ()

/-- A dialer for which no target is reachable. -/
def dialRefused : String → Except String Unit := fun _ => .error "connection refused"

/-- A `CONNECT example.test:80` request. -/
def connectRequest : Request := ⟨"CONNECT", "example.test:80", []⟩

/-- An outside world for the server in which the bind succeeds and one client upgrades
and opens one stream. -/
def sampleServerEnv : ServerEnv where
  netListen := fun _ => .ok ()
  requests := [⟨goodWriter, upgradeGet, ⟨.ok (), [⟨goodWriter, connectRequest, dialRefused⟩]⟩⟩]
  serveError := "http: Server closed"

/-! ## Token provider -/

/-- C1: when the id-token is non-empty, `getToken` returns exactly that string with no
error and its trace is empty, so it makes no IAM call (neither `NewService` nor
`GenerateIdToken`), whatever the service account, the client id and the remote are. -/
theorem getToken_idToken_passthrough (env : ClientEnv) (c : Client) (h : c.idToken ≠ "") :
    c.getToken env = (.ok c.idToken, []) ∧ iamCalls (c.getToken env).2 = [] := by
  simp [Client.getToken, h, iamCalls]

/-- C1 at a configuration with both an id-token and a service account. -/
theorem getToken_idToken_passthrough_witness :
    (⟨"127.0.0.1:8080", "http://127.0.0.1:8080", "X", "sa@p.iam", "aud"⟩ : Client).idToken ≠ ""
    ∧ (Client.getToken sampleClientEnv
          ⟨"127.0.0.1:8080", "http://127.0.0.1:8080", "X", "sa@p.iam", "aud"⟩
        = (.ok "X", [])
      ∧ iamCalls (Client.getToken sampleClientEnv
          ⟨"127.0.0.1:8080", "http://127.0.0.1:8080", "X", "sa@p.iam", "aud"⟩).2 = []) :=
  ⟨by decide, getToken_idToken_passthrough sampleClientEnv
    ⟨"127.0.0.1:8080", "http://127.0.0.1:8080", "X", "sa@p.iam", "aud"⟩ (by decide)⟩

/-- C2: with an empty id-token and an empty service account, `getToken` returns an error
with an empty trace (no IAM call), and `start` returns that same error with an empty
trace: no upgrade request is issued, no mux session is created and no listener is
bound. -/
theorem start_missing_credential (env : ClientEnv) (c : Client)
    (hid : c.idToken = "") (hsa : c.serviceAccount = "") :
    c.getToken env
        = (.error "unable to get token, missing id token or service account ", [])
    ∧ c.start env
        = (.error "unable to get token, missing id token or service account ", [])
    ∧ (∀ req, Event.roundTrip req ∉ (c.start env).2)
    ∧ Event.yamuxClient ∉ (c.start env).2
    ∧ (∀ addr, Event.netListen addr ∉ (c.start env).2) := by
  have hg : c.getToken env
      = (.error "unable to get token, missing id token or service account ", []) := by
    simp [Client.getToken, hid, hsa]
  have hs : c.start env
      = (.error "unable to get token, missing id token or service account ", []) := by
    simp [Client.start, hg]
  simp [hg, hs]

/-- C2 at the default command line without credentials, in a world where every call
would succeed. -/
theorem start_missing_credential_witness :
    (⟨"127.0.0.1:8080", "http://127.0.0.1:8080", "", "", ""⟩ : Client).idToken = ""
    ∧ (⟨"127.0.0.1:8080", "http://127.0.0.1:8080", "", "", ""⟩ : Client).serviceAccount = ""
    ∧ Client.start sampleClientEnv ⟨"127.0.0.1:8080", "http://127.0.0.1:8080", "", "", ""⟩
        = (.error "unable to get token, missing id token or service account ", []) :=
  ⟨rfl, rfl, (start_missing_credential sampleClientEnv
    ⟨"127.0.0.1:8080", "http://127.0.0.1:8080", "", "", ""⟩ rfl rfl).2.1⟩

/-- C10: with an empty id-token and a non-empty service account, every
`GenerateIdToken` call in the trace of `getToken` has as name the service account
behind the resource prefix of the wildcard project, `IncludeEmail` true and as audience the
client id when it is non-empty and the remote string itself otherwise; and that call is
made whenever the IAM service can be constructed. -/
theorem getToken_token_request (env : ClientEnv) (c : Client)
    (hid : c.idToken = "") (hsa : c.serviceAccount ≠ "") :
    (∀ name req, Event.iamGenerateIdToken name req ∈ (c.getToken env).2 →
      name = "projects/-/serviceAccounts/" ++ c.serviceAccount
      ∧ req.IncludeEmail = true
      ∧ req.Audience = if c.clientId ≠ "" then c.clientId else c.remote)
    ∧ (env.iamNewService = .ok () →
      (c.getToken env).2 =
        [.iamNewService,
         .iamGenerateIdToken ("projects/-/serviceAccounts/" ++ c.serviceAccount)
           ⟨if c.clientId ≠ "" then c.clientId else c.remote, true⟩]) := by
  constructor
  · intro name req hmem
    unfold Client.getToken at hmem
    simp only [hid, hsa, ne_eq, not_true_eq_false, not_false_eq_true, if_true, if_false]
      at hmem
    cases hn : env.iamNewService with
    | error e => simp [hn] at hmem
    | ok u =>
      simp only [hn] at hmem
      cases hg : env.iamGenerateIdToken ("projects/-/serviceAccounts/" ++ c.serviceAccount)
          ⟨if c.clientId = "" then c.remote else c.clientId, true⟩ with
      | error e =>
        simp [hg] at hmem
        obtain ⟨rfl, rfl⟩ := hmem
        simp
      | ok tok =>
        simp [hg] at hmem
        obtain ⟨rfl, rfl⟩ := hmem
        simp
  · intro hn
    unfold Client.getToken
    simp only [hid, hsa, ne_eq, not_true_eq_false, not_false_eq_true, if_true, if_false, hn]
    split <;> simp

/-- C10 at a configuration without client id: the audience is the remote string as
written, here with an upper-case host and a trailing slash. -/
theorem getToken_token_request_witness :
    (⟨"127.0.0.1:8080", "HTTP://Example.COM:443/", "", "sa@p.iam", ""⟩ : Client).idToken = ""
    ∧ (⟨"127.0.0.1:8080", "HTTP://Example.COM:443/", "", "sa@p.iam", ""⟩ :
        Client).serviceAccount ≠ ""
    ∧ (Client.getToken sampleClientEnv
        ⟨"127.0.0.1:8080", "HTTP://Example.COM:443/", "", "sa@p.iam", ""⟩).2
      = [.iamNewService,
         .iamGenerateIdToken "projects/-/serviceAccounts/sa@p.iam"
           ⟨"HTTP://Example.COM:443/", true⟩] :=
  ⟨rfl, by decide, (getToken_token_request sampleClientEnv
    ⟨"127.0.0.1:8080", "HTTP://Example.COM:443/", "", "sa@p.iam", ""⟩ rfl (by decide)).2 rfl⟩

/-! ## Client side of the upgrade -/

/-- Any response whose status is not 101 makes `connect` return an error, and the only
event is the round trip: `resp.Body.Close` is not called on this path. -/
theorem connect_wrong_status (env : ClientEnv) (c : Client) (token u : String)
    (resp : Response) (sc : Option Handle)
    (hu : env.urlParse c.remote = .ok u)
    (hr : env.roundTrip (upgradeRequest u token) = .ok (resp, sc))
    (hs : resp.StatusCode ≠ 101) :
    c.connect env token
      = (.error ("unexpected HTTP response: " ++ resp.Status),
         [.roundTrip (upgradeRequest u token)]) := by
  unfold upgradeRequest at hr
  simp [Client.connect, upgradeRequest, hu, hr, hs]

/-- A response with status 101 whose `Upgrade` header is missing or is not "websocket"
makes `connect` return an error, and the body of the response is closed. -/
theorem connect_wrong_protocol (env : ClientEnv) (c : Client) (token u : String)
    (resp : Response) (sc : Option Handle)
    (hu : env.urlParse c.remote = .ok u)
    (hr : env.roundTrip (upgradeRequest u token) = .ok (resp, sc))
    (hs : resp.StatusCode = 101) (hp : resp.Header.Get "Upgrade" ≠ "websocket") :
    (∃ msg, (c.connect env token).1 = .error msg)
    ∧ Event.call resp.Body .Close ∈ (c.connect env token).2 := by
  unfold upgradeRequest at hr
  cases sc <;> simp [Client.connect, hu, hr, hs, hp]

/-- C3, evaluated where it fails: on the response `200 OK` the method `connect` returns
the error "unexpected HTTP response: 200 OK", its whole trace is the round trip, and
`Close` is never called on the body of the response (handle 2). -/
theorem connect_status_200_body_not_closed :
    Client.connect refusingClientEnv
        ⟨"127.0.0.1:9100", "http://127.0.0.1:9000", "X", "", ""⟩ "X"
      = (.error "unexpected HTTP response: 200 OK",
         [.roundTrip (upgradeRequest "http://127.0.0.1:9000" "X")])
    ∧ Event.call 2 .Close ∉ (Client.connect refusingClientEnv
        ⟨"127.0.0.1:9100", "http://127.0.0.1:9000", "X", "", ""⟩ "X").2 := by
  decide

/-- The socket `connect` returns pairs the connection the trace hook delivered for the
upgrade request with the body of the `101` response to that same request. -/
theorem connect_ok_pairs (env : ClientEnv) (c : Client) (token : String)
    (w : wrappedConn) (t : List Event) (h : c.connect env token = (.ok w, t)) :
    ∃ req resp, env.roundTrip req = .ok (resp, some w.Conn)
      ∧ resp.StatusCode = 101 ∧ resp.Body = w.rwc := by
  unfold Client.connect at h
  split at h
  · simp at h
  · rename_i u _
    dsimp only at h
    split at h
    · simp at h
    · rename_i resp switchedConn hr
      split at h
      · simp at h
      · rename_i hs
        split at h
        · simp at h
        · rename_i sc
          split at h
          · simp at h
          · split at h
            · simp at h
            · simp only [Prod.mk.injEq, Except.ok.injEq] at h
              obtain ⟨rfl, -⟩ := h
              exact ⟨_, resp, hr, by simpa using hs, rfl⟩

/-- C6 as stated fails in its delegation clause: when the hook captured socket 1 and the
body of the `101` response is handle 2, which wraps socket 1, `connect` returns the pair
of the two, and `Close` on it is the call `Close` on the body (handle 2), not a call on
the embedded raw socket; the raw socket is closed all the same, through the body. -/
theorem wrappedConn_close_goes_through_body :
    (Client.connect sampleClientEnv
        ⟨"127.0.0.1:9100", "http://127.0.0.1:9000", "X", "", ""⟩ "X").1 = .ok ⟨1, 2⟩
    ∧ sampleBodyConn 2 = some 1
    ∧ (⟨1, 2⟩ : wrappedConn).invoke .Close = .call 2 .Close
    ∧ ¬ ((⟨1, 2⟩ : wrappedConn).invoke .Close
          = Event.call (⟨1, 2⟩ : wrappedConn).Conn .Close)
    ∧ (⟨1, 2⟩ : wrappedConn).Conn
        ∈ closedBy sampleBodyConn ((⟨1, 2⟩ : wrappedConn).invoke .Close) := by
  decide

/-- C6 amended: the socket returned by `connect` pairs the raw socket captured by the
connection-trace hook (`Conn`) with the body of the response (`rwc`); `Read`, `Write` and
`Close` are calls on `rwc`, while the addresses and the deadlines are calls on `Conn`.
With a transport whose `101` body wraps the connection of its request, as the one of
`net/http` does, `Close` on the returned socket closes the raw socket. -/
theorem wrappedConn_delegation (env : ClientEnv) (bodyConn : Handle → Option Handle)
    (c : Client) (token : String) (w : wrappedConn) (t : List Event)
    (htr : ∀ req resp sc, env.roundTrip req = .ok (resp, some sc) →
      resp.StatusCode = 101 → bodyConn resp.Body = some sc)
    (h : c.connect env token = (.ok w, t)) :
    (∃ req resp, env.roundTrip req = .ok (resp, some w.Conn) ∧ resp.Body = w.rwc)
    ∧ w.invoke .Read = .call w.rwc .Read
    ∧ w.invoke .Write = .call w.rwc .Write
    ∧ w.invoke .Close = .call w.rwc .Close
    ∧ w.invoke .LocalAddr = .call w.Conn .LocalAddr
    ∧ w.invoke .RemoteAddr = .call w.Conn .RemoteAddr
    ∧ w.invoke .SetDeadline = .call w.Conn .SetDeadline
    ∧ w.invoke .SetReadDeadline = .call w.Conn .SetReadDeadline
    ∧ w.invoke .SetWriteDeadline = .call w.Conn .SetWriteDeadline
    ∧ w.Conn ∈ closedBy bodyConn (w.invoke .Close) := by
  obtain ⟨req, resp, hr, hs, hb⟩ := connect_ok_pairs env c token w t h
  refine ⟨⟨req, resp, hr, hb⟩, rfl, rfl, rfl, rfl, rfl, rfl, rfl, rfl, ?_⟩
  have hw : bodyConn w.rwc = some w.Conn := hb ▸ htr req resp w.Conn hr hs
  simp [wrappedConn.invoke, wrappedConn.Close, closedBy, hw]

/-- C6 amended, at a successful upgrade: socket 1 and body 2, which wraps socket 1. -/
theorem wrappedConn_delegation_witness :
    Client.connect sampleClientEnv ⟨"127.0.0.1:9100", "http://127.0.0.1:9000", "X", "", ""⟩ "X"
      = (.ok ⟨1, 2⟩, [.roundTrip (upgradeRequest "http://127.0.0.1:9000" "X")])
    ∧ sampleBodyConn 2 = some 1
    ∧ (⟨1, 2⟩ : wrappedConn).invoke .Close = .call 2 .Close
    ∧ (⟨1, 2⟩ : wrappedConn).invoke .SetDeadline = .call 1 .SetDeadline
    ∧ 1 ∈ closedBy sampleBodyConn ((⟨1, 2⟩ : wrappedConn).invoke .Close) :=
  have h := wrappedConn_delegation sampleClientEnv sampleBodyConn
    ⟨"127.0.0.1:9100", "http://127.0.0.1:9000", "X", "", ""⟩ "X" ⟨1, 2⟩
    [.roundTrip (upgradeRequest "http://127.0.0.1:9000" "X")]
    (by
      intro req resp sc hr _
      simp only [sampleClientEnv, Except.ok.injEq, Prod.mk.injEq, Option.some.injEq] at hr
      obtain ⟨rfl, rfl⟩ := hr
      rfl)
    (by decide)
  ⟨by decide, rfl, h.2.2.2.1, h.2.2.2.2.2.2.1, h.2.2.2.2.2.2.2.2.2⟩

/-! ## Server side of the upgrade -/

/-- C4: a request whose `Upgrade` header is absent (empty) or differs from "websocket"
is answered by `tunnel` with `http.Error` and status 400 only: the status sent is 400,
no 101 is written, the connection is not hijacked and no mux session is created. -/
theorem tunnel_rejects_bad_upgrade (env : TunnelEnv) (s : Server) (w : ResponseWriter)
    (req : Request) (h : req.Header.Get "Upgrade" ≠ "websocket") :
    s.tunnel env w req
      = httpError (if req.Header.Get "Upgrade" = "" then "missing next protocol"
          else "unknown next protocol") 400
    ∧ statusSent (s.tunnel env w req) = some 400
    ∧ Event.writeHeader 101 ∉ s.tunnel env w req
    ∧ Event.hijack ∉ s.tunnel env w req
    ∧ Event.yamuxServer ∉ s.tunnel env w req := by
  by_cases he : req.Header.Get "Upgrade" = ""
  · simp [Server.tunnel, Server.acceptHTTP, he, httpError, statusSent, writeHeaderCodes]
  · simp [Server.tunnel, Server.acceptHTTP, he, h, httpError, statusSent, writeHeaderCodes]

/-- C4 at a request without any `Upgrade` header. -/
theorem tunnel_rejects_bad_upgrade_witness :
    Header.Get (Request.mk "GET" "127.0.0.1:9000" []).Header "Upgrade" ≠ "websocket"
    ∧ statusSent (Server.tunnel idleTunnel ⟨"proxy", ""⟩ goodWriter
        ⟨"GET", "127.0.0.1:9000", []⟩) = some 400 :=
  ⟨by decide, (tunnel_rejects_bad_upgrade idleTunnel ⟨"proxy", ""⟩ goodWriter
    ⟨"GET", "127.0.0.1:9000", []⟩ (by decide)).2.1⟩

/-- C9 as stated fails: for a well-formed upgrade request whose `Hijack` call fails, the
status `tunnel` sends is not 500, and 500 is never passed to `WriteHeader`. -/
theorem tunnel_hijack_failure_not_500 :
    upgradeGet.Header.Get "Upgrade" = "websocket"
    ∧ failingHijackWriter.hijack = .error "hijack failed"
    ∧ statusSent (Server.tunnel idleTunnel ⟨"proxy", ""⟩ failingHijackWriter upgradeGet)
        ≠ some 500
    ∧ 500 ∉ writeHeaderCodes
        (Server.tunnel idleTunnel ⟨"proxy", ""⟩ failingHijackWriter upgradeGet) := by
  decide

/-- C9 amended: for a request that carries `Upgrade: websocket` and whose `Hijack` call
fails, `tunnel` reports the failure through `http.Error` with status 400, after the
calls `acceptHTTP` made; 500 is never passed to `WriteHeader`. -/
theorem tunnel_hijack_failure_reports_400 (env : TunnelEnv) (s : Server)
    (w : ResponseWriter) (req : Request) (e : String)
    (hu : req.Header.Get "Upgrade" = "websocket") (hj : w.isHijacker = true)
    (hf : w.hijack = .error e) :
    s.tunnel env w req
      = (s.acceptHTTP w req).2 ++ httpError ("hijacking client connection: " ++ e) 400
    ∧ 500 ∉ writeHeaderCodes (s.tunnel env w req) := by
  simp [Server.tunnel, Server.acceptHTTP, hu, hj, hf, httpError, writeHeaderCodes]

/-- C9 amended, at a hijack that fails with "hijack failed". -/
theorem tunnel_hijack_failure_reports_400_witness :
    upgradeGet.Header.Get "Upgrade" = "websocket"
    ∧ failingHijackWriter.isHijacker = true
    ∧ failingHijackWriter.hijack = .error "hijack failed"
    ∧ 500 ∉ writeHeaderCodes
        (Server.tunnel idleTunnel ⟨"forward", "127.0.0.1:7000"⟩ failingHijackWriter upgradeGet) :=
  ⟨by decide, rfl, rfl, (tunnel_hijack_failure_reports_400 idleTunnel
    ⟨"forward", "127.0.0.1:7000"⟩ failingHijackWriter upgradeGet "hijack failed"
    (by decide) rfl rfl).2⟩

/-! ## The CONNECT handler of proxy mode -/

/-- C7: for a request whose method is not CONNECT the handler `connect` only calls
`WriteHeader(405)`: the status is 405, nothing is dialed, the stream is not hijacked and
no byte pipe is started. -/
theorem connect_rejects_other_methods (dial : String → Except String Unit) (s : Server)
    (w : ResponseWriter) (r : Request) (h : r.Method ≠ "CONNECT") :
    s.connect dial w r = [.writeHeader 405]
    ∧ statusSent (s.connect dial w r) = some 405
    ∧ (∀ addr, Event.dial addr ∉ s.connect dial w r)
    ∧ Event.hijack ∉ s.connect dial w r
    ∧ Event.pipe ∉ s.connect dial w r := by
  simp [Server.connect, h, statusSent, writeHeaderCodes]

/-- C7 at the request `GET /` of scenario S6. -/
theorem connect_rejects_other_methods_witness :
    (Request.mk "GET" "example.test:80" []).Method ≠ "CONNECT"
    ∧ Server.connect dialOk ⟨"proxy", ""⟩ goodWriter ⟨"GET", "example.test:80", []⟩
        = [.writeHeader 405] :=
  ⟨by decide, (connect_rejects_other_methods dialOk ⟨"proxy", ""⟩ goodWriter
    ⟨"GET", "example.test:80", []⟩ (by decide)).1⟩

/-- A CONNECT request whose dial fails is answered with `http.Error` and status 503
before any other `WriteHeader` call. -/
theorem connect_dial_failure (dial : String → Except String Unit) (s : Server)
    (w : ResponseWriter) (r : Request) (e : String)
    (hm : r.Method = "CONNECT") (hd : dial r.Host = .error e) :
    statusSent (s.connect dial w r) = some 503 := by
  simp [Server.connect, hm, hd, httpError, statusSent, writeHeaderCodes]

/-- A CONNECT request whose dial succeeds has `WriteHeader(200)` as the first
`WriteHeader` call, whatever the response writer does afterwards. -/
theorem connect_dial_success (dial : String → Except String Unit) (s : Server)
    (w : ResponseWriter) (r : Request)
    (hm : r.Method = "CONNECT") (hd : dial r.Host = .ok ()) :
    statusSent (s.connect dial w r) = some 200 := by
  unfold Server.connect
  simp only [hm, hd, ne_eq, not_true_eq_false, if_false]
  split
  · simp [httpError, statusSent, writeHeaderCodes]
  · split <;> simp [httpError, statusSent, writeHeaderCodes]

/-- C8, evaluated where it fails: for a CONNECT request whose dial succeeds, the handler
calls `WriteHeader(200)` before it looks at the response writer.  With a writer that is
not hijackable the calls are 200 then 400, with a failing `Hijack` they are 200 then 500,
and in both cases the status sent is 200. -/
theorem connect_status_200_before_hijack :
    writeHeaderCodes (Server.connect dialOk ⟨"proxy", ""⟩ plainWriter connectRequest)
      = [200, 400]
    ∧ statusSent (Server.connect dialOk ⟨"proxy", ""⟩ plainWriter connectRequest) = some 200
    ∧ writeHeaderCodes (Server.connect dialOk ⟨"proxy", ""⟩ failingHijackWriter connectRequest)
      = [200, 500]
    ∧ statusSent (Server.connect dialOk ⟨"proxy", ""⟩ failingHijackWriter connectRequest)
      = some 200
    ∧ statusSent (Server.connect dialRefused ⟨"proxy", ""⟩ goodWriter connectRequest)
      = some 503
    ∧ Server.connect dialOk ⟨"proxy", ""⟩ plainWriter connectRequest
      = [.dial "example.test:80", .writeHeader 200,
         .headerSet "Content-Type" "text/plain; charset=utf-8",
         .headerSet "X-Content-Type-Options" "nosniff",
         .writeHeader 400, .write "make request over HTTP/1\n",
         .dialedConnClose, .requestBodyClose] := by
  decide

/-! ## Server start -/

/-- In proxy mode the handler `tunnel` does not read the upstream. -/
theorem tunnel_proxy_ignores_upstream (env : TunnelEnv) (w : ResponseWriter) (req : Request)
    (u₁ u₂ : String) :
    Server.tunnel env ⟨"proxy", u₁⟩ w req = Server.tunnel env ⟨"proxy", u₂⟩ w req := by
  simp [Server.tunnel, Server.acceptHTTP, Server.connect]

/-- C5 as stated fails: started in mode "forward" with an empty upstream, `StartServer`
binds the listener, serves the upgrade (101, hijack, mux session), dials the empty
upstream for the accepted stream, and ends with the error of `http.Serve`. -/
theorem startServer_forward_empty_upstream_binds :
    forwardCommand sampleServerEnv "0.0.0.0:8080" ""
      = (.error "http: Server closed",
         [.netListen "0.0.0.0:8080",
          .headerSet "Upgrade" "websocket", .headerSet "Connection" "upgrade",
          .writeHeader 101, .hijack, .flush, .yamuxServer, .goAcceptMux,
          .dial "", .streamClose, .waitDone]) := by
  decide

/-- C5 amended: `StartServer` does not validate mode and upstream.  For every bind
address, mode and upstream its first call is `net.Listen` on the address, and the error
it returns is the one of `net.Listen` or else the one `http.Serve` ends with; in mode
"proxy" the upstream is ignored. -/
theorem startServer_no_validation (env : ServerEnv) (addr mode upstream : String) :
    (StartServer env addr mode upstream).2.head? = some (.netListen addr)
    ∧ (StartServer env addr mode upstream).1
        = (match env.netListen addr with
           | .error e => .error e
           | .ok _ => .error env.serveError)
    ∧ ∀ other : String,
        StartServer env addr "proxy" upstream = StartServer env addr "proxy" other := by
  refine ⟨?_, ?_, ?_⟩
  · unfold StartServer
    split <;> simp
  · unfold StartServer
    split <;> simp_all
  · intro other
    unfold StartServer
    split
    · rfl
    · simp only [tunnel_proxy_ignores_upstream _ _ _ upstream other]

end RunConnect
